import Mathlib

/-!
Shallow embedding of the meikuraledutech/ai library core: the retrying
validated Gemini provider (`Send`, `validateJSON`, `classifyError`,
`buildRequest`, `parseResponse`, `sendOnce`) and the postgres store
operations the claims touch (`AddMessage`, `ListMessages`,
`AddRequestLog` row creation, `UpdateRequestLog` row patching).

Go machine integers are modelled as `Int` (no arithmetic here ever nears
overflow), Go `*T` option pointers as `Option T`, Go errors as an
inductive `GoErr` that distinguishes sentinel values, `net.Error`
implementors and `fmt.Errorf`-wrapped errors, because the code compares
errors by identity and by type assertion.  The remote HTTP endpoint and
the JSON (un)marshaller are external to the repository, so each network
attempt's outcome is an oracle argument `Nat → AttemptOutcome`, and the
schema parser is an argument `String → Option String`.
-/

namespace AI

/-- Status constants from v1/ai.go. -/
def StatusSuccess : String := "success"

def StatusFailed : String := "failed"

def StatusPending : String := "pending"

/-- FailReason constants from v1/ai.go. -/
def FailReasonIncompleteJSON : String := "incomplete_json"

def FailReasonInvalidJSON : String := "invalid_json"

def FailReasonNetworkError : String := "network_error"

def FailReasonTimeout : String := "timeout"

def FailReasonAPIError : String := "api_error"

def FailReasonMaxRetries : String := "max_retries_exceeded"

def FailReasonUnknownError : String := "unknown_error"

/-- `const maxAttempts = 2` in gemini.go. -/
def maxAttempts : Nat := 2

/-- Usage holds the four token counters (v1/ai.go). -/
structure Usage where
  promptTokens : Int
  responseTokens : Int
  totalTokens : Int
  thoughtTokens : Int
  deriving Repr, DecidableEq

/-- Result is content plus usage (v1/ai.go). -/
structure Result where
  content : String
  usage : Usage
  deriving Repr, DecidableEq

/-- Message is one conversation turn (v1/ai.go); `createdAt` stands for
the Go `time.Time` as an abstract instant. -/
structure Message where
  id : String
  sessionID : String
  seq : Int
  role : String
  content : String
  usage : Option Usage
  createdAt : Int
  deriving Repr, DecidableEq

/-- Rules control AI behavior per request (v1/ai.go). -/
structure Rules where
  systemPrompt : String
  outputSchema : String
  maxTokens : Int
  deriving Repr, DecidableEq

/-- RequestLog record (v1/ai.go), as the value passed to AddRequestLog. -/
structure RequestLog where
  id : String
  sessionID : String
  prompt : String
  response : String
  attemptNumber : Int
  retryCount : Int
  finalStatus : String
  failReason : String
  errorMessage : String
  usage : Usage
  createdAt : Int
  updatedAt : Int
  deriving Repr, DecidableEq

/-- Go error values, shaped so that the source's identity comparisons
(`err == context.DeadlineExceeded`, `err == context.Canceled`), its
`net.Error` type assertion and its `fmt.Errorf("... %w ...")` wrapping
are all expressible.  A wrapped error is a distinct value: it is never
identical to a sentinel and never satisfies the `net.Error` assertion. -/
inductive GoErr where
  /-- the `context.DeadlineExceeded` sentinel -/
  | deadlineExceeded : GoErr
  /-- the `context.Canceled` sentinel -/
  | canceled : GoErr
  /-- a value implementing `net.Error`, with its `Timeout()` flag -/
  | netErr : Bool → String → GoErr
  /-- the `ai.ErrProviderFailed` sentinel -/
  | providerFailed : GoErr
  /-- the `ai.ErrEmptyPrompt` sentinel -/
  | emptyPrompt : GoErr
  /-- a plain `errors.New` / unmarshal error -/
  | errorString : String → GoErr
  /-- `fmt.Errorf(pre ++ "%w" ++ post, inner)`: Error() is
  `pre ++ inner.Error() ++ post`, and errors.Is unwraps to `inner` -/
  | wrapped : String → GoErr → String → GoErr
  deriving Repr, DecidableEq

/-- `err.Error()` for the model. -/
def GoErr.msg : GoErr → String
  | .deadlineExceeded => "context deadline exceeded"
  | .canceled => "context canceled"
  | .netErr _ m => m
  | .providerFailed => "ai: provider error"
  | .emptyPrompt => "ai: prompt is empty"
  | .errorString m => m
  | .wrapped pre inner post => pre ++ inner.msg ++ post

/-- `errors.Is err target`: identity, else follow the Unwrap chain. -/
def GoErr.is : GoErr → GoErr → Bool
  | e, t =>
    if e = t then true
    else match e with
      | .wrapped _ inner _ => inner.is t
      | _ => false

/-- classifyError from gemini.go: identity check against
context.DeadlineExceeded, then the net.Error type assertion (timeout
flag decides timeout vs network), then identity against
context.Canceled, else unknown.  The checks are `==` and a type
assertion, so a wrapped error always falls to the default. -/
def classifyError : GoErr → String
  | .deadlineExceeded => FailReasonTimeout
  | .netErr true _ => FailReasonTimeout
  | .netErr false _ => FailReasonNetworkError
  | .canceled => FailReasonNetworkError
  | _ => FailReasonUnknownError

/-- One step of validateJSON's rune scan: the pair is (curly, square). -/
def bracketStep : Int × Int → Char → Int × Int
  | (curly, square), c =>
    if c = '{' then (curly + 1, square)
    else if c = '}' then (curly - 1, square)
    else if c = '[' then (curly, square + 1)
    else if c = ']' then (curly, square - 1)
    else (curly, square)

/-- validateJSON from gemini.go: single scan keeping two counters,
valid iff both end at zero; on failure the reason is
FailReasonIncompleteJSON. -/
def validateJSON (s : String) : Bool × String :=
  let cs := s.toList.foldl bracketStep (0, 0)
  if cs.1 ≠ 0 ∨ cs.2 ≠ 0 then (false, FailReasonIncompleteJSON)
  else (true, "")

/-- Spec-side net counter: occurrences of `open` minus occurrences of
`close` in the string, each counted by its own independent scan. -/
def netCount (s : String) (opening closing : Char) : Int :=
  ((s.toList.filter (fun c => c = opening)).length : Int)
    - ((s.toList.filter (fun c => c = closing)).length : Int)

/-- One turn of the outbound `contents` array. -/
structure Turn where
  role : String
  text : String
  deriving Repr, DecidableEq

/-- The `generationConfig` object of the outbound request. -/
structure GenerationConfig where
  responseMimeType : String
  maxOutputTokens : Option Int
  responseSchema : Option String
  deriving Repr, DecidableEq

/-- The outbound request body built by buildRequest. -/
structure GenRequest where
  contents : List Turn
  generationConfig : GenerationConfig
  systemInstruction : Option String
  deriving Repr, DecidableEq

/-- Role mapping used for history entries: `assistant` becomes `model`,
anything else passes through. -/
def mapRole (role : String) : String :=
  if role = "assistant" then "model" else role

/-- buildRequest from gemini.go.  `parseSchema` models
`json.Unmarshal` on the rules' schema string: `none` is a parse error,
in which case the schema is silently omitted.  The history is mapped
turn by turn and the prompt is appended as a trailing user turn. -/
def buildRequest (parseSchema : String → Option String) (rules : Rules)
    (history : List Message) (prompt : String) : GenRequest :=
  let contents :=
    history.map (fun m => Turn.mk (mapRole m.role) m.content)
      ++ [Turn.mk "user" prompt]
  { contents := contents
    generationConfig :=
      { responseMimeType := "application/json"
        maxOutputTokens := if rules.maxTokens > 0 then some rules.maxTokens else none
        responseSchema :=
          if rules.outputSchema ≠ "" then parseSchema rules.outputSchema else none }
    systemInstruction :=
      if rules.systemPrompt ≠ "" then some rules.systemPrompt else none }

/-- Gemini wire response types (gemini.go). -/
structure GeminiPart where
  text : String
  deriving Repr, DecidableEq

structure GeminiContent where
  parts : List GeminiPart
  role : String
  deriving Repr, DecidableEq

structure GeminiCandidate where
  content : GeminiContent
  deriving Repr, DecidableEq

structure GeminiUsage where
  promptTokenCount : Int
  candidatesTokenCount : Int
  totalTokenCount : Int
  thoughtsTokenCount : Int
  deriving Repr, DecidableEq

structure GeminiResponse where
  candidates : List GeminiCandidate
  usageMetadata : GeminiUsage
  deriving Repr, DecidableEq

/-- parseResponse from gemini.go, after a successful unmarshal: empty
candidates or empty parts is a ProviderFailed-wrapped error; otherwise
the first part's text and the verbatim usage counters. -/
def parseResponse (resp : GeminiResponse) : Except GoErr Result :=
  match resp.candidates with
  | [] => .error (.wrapped "" .providerFailed ": empty response from Gemini")
  | c :: _ =>
    match c.content.parts with
    | [] => .error (.wrapped "" .providerFailed ": empty response from Gemini")
    | p :: _ =>
      .ok { content := p.text
            usage :=
              { promptTokens := resp.usageMetadata.promptTokenCount
                responseTokens := resp.usageMetadata.candidatesTokenCount
                totalTokens := resp.usageMetadata.totalTokenCount
                thoughtTokens := resp.usageMetadata.thoughtsTokenCount } }

/-- Outcome of one outbound HTTP call, supplied by the oracle: either
`client.Do` fails with a transport error, or an HTTP response arrives
with a status code and a body; `parsed` is what `json.Unmarshal` makes
of the body (`none` = malformed). -/
inductive AttemptOutcome where
  | transportErr : GoErr → AttemptOutcome
  | httpResp : Int → String → Option GeminiResponse → AttemptOutcome
  deriving Repr, DecidableEq

/-- sendOnce from gemini.go, given the network outcome of its single
HTTP call.  Transport errors are wrapped with "ai: send request: ",
non-200 statuses become ProviderFailed-wrapped errors, unmarshal
failures become "ai: parse response: "-wrapped errors, and a parsed
body goes to parseResponse. -/
def sendOnce (outcome : AttemptOutcome) : Except GoErr Result :=
  match outcome with
  | .transportErr e => .error (.wrapped "ai: send request: " e "")
  | .httpResp status rawBody parsed =>
    if status ≠ 200 then
      .error (.wrapped "" .providerFailed (": status " ++ toString status ++ ": " ++ rawBody))
    else
      match parsed with
      | none => .error (.wrapped "ai: parse response: " (.errorString "unmarshal error") "")
      | some resp => parseResponse resp

/-- A call through the Persistence Port recorded by Send. -/
inductive StoreOp where
  /-- `store.AddRequestLog(ctx, log)` with the record Send constructed -/
  | addRequestLog : RequestLog → StoreOp
  /-- `store.UpdateRequestLog(ctx, id, response, status, failReason,
  errorMsg, retryCount, usage)` -/
  | updateRequestLog : String → String → String → String → String → Int →
      Option Usage → StoreOp
  deriving Repr, DecidableEq

/-- Behaviour of the attached store, as far as Send can observe it:
whether AddRequestLog returns an error (on success Send keeps the new
row's id), and the error, if any, each UpdateRequestLog call returns
(Send discards that return value). -/
structure StoreModel where
  addLogOk : Bool
  updateErr : Nat → Option GoErr

/-- GeminiProvider configuration: credentials and the optional store. -/
structure GeminiProvider where
  apiKey : String
  modelID : String
  store : Option StoreModel

/-- The call context: `ctx.Value("session_id")` as an optional string. -/
structure Ctx where
  sessionHint : Option String

/-- Everything observable about one Send call: the Go return pair
(`*Result`, `error`) and the traces of outbound requests and
Persistence Port calls, in order. -/
structure SendOutput where
  result : Option Result
  err : Option GoErr
  requests : List GenRequest
  storeOps : List StoreOp
  deriving Repr

/-- The synthetic assistant turn injected before a retry. -/
def retryAssistantMsg (content : String) : Message :=
  { id := "", sessionID := "", seq := 0, role := "assistant"
    content := content, usage := none, createdAt := 0 }

/-- The synthetic user turn injected before a retry. -/
def retryUserText : String :=
  "Your previous response had incomplete JSON (mismatched brackets). Please regenerate the complete, valid JSON response."

def retryUserMsg : Message :=
  { id := "", sessionID := "", seq := 0, role := "user"
    content := retryUserText, usage := none, createdAt := 0 }

/-- Whether Send's log patches actually run: `g.store != nil && logID != ""`. -/
def logEnabled (g : GeminiProvider) (logID : String) : Bool :=
  g.store.isSome && logID ≠ ""

/-- The body of Send's `for attempt := 1; attempt <= maxAttempts;
attempt++` loop, gemini.go lines 79-160.  `fuel` is the number of loop
iterations still allowed; Send enters with `fuel = maxAttempts` and
`attempt = 1`, and the loop body only continues while
`attempt < maxAttempts`, so the `fuel = 0` case corresponds to the
post-loop `return nil, lastErr` (dead in the source, kept for
faithfulness).  `oracle` gives each HTTP call's outcome. -/
def sendLoop (g : GeminiProvider) (parseSchema : String → Option String)
    (oracle : Nat → AttemptOutcome) (rules : Rules) (prompt : String)
    (logID : String) (attempt : Nat) (fuel : Nat) (history : List Message)
    (lastErr : Option GoErr) (lastResult : Option Result)
    (reqs : List GenRequest) (ops : List StoreOp) : SendOutput :=
  match fuel with
  | 0 => { result := none, err := lastErr, requests := reqs, storeOps := ops }
  | fuel + 1 =>
    let req := buildRequest parseSchema rules history prompt
    let reqs := reqs ++ [req]
    match sendOnce (oracle (attempt - 1)) with
    | .error e =>
      let failReason := classifyError e
      let ops :=
        if logEnabled g logID then
          ops ++ [StoreOp.updateRequestLog logID "" StatusFailed failReason
            e.msg ((attempt : Int) - 1) none]
        else ops
      if attempt < maxAttempts then
        sendLoop g parseSchema oracle rules prompt logID (attempt + 1) fuel
          history (some e) lastResult reqs ops
      else
        { result := none, err := some e, requests := reqs, storeOps := ops }
    | .ok result =>
      let v := validateJSON result.content
      if v.1 then
        let ops :=
          if logEnabled g logID then
            ops ++ [StoreOp.updateRequestLog logID result.content StatusSuccess
              "" "" ((attempt : Int) - 1) (some result.usage)]
          else ops
        { result := some result, err := none, requests := reqs, storeOps := ops }
      else
        let lastResult := some result
        let ops :=
          if logEnabled g logID then
            ops ++ [StoreOp.updateRequestLog logID result.content StatusPending
              v.2 "JSON validation failed" ((attempt : Int) - 1)
              (some result.usage)]
          else ops
        if attempt < maxAttempts then
          sendLoop g parseSchema oracle rules prompt logID (attempt + 1) fuel
            (history ++ [retryAssistantMsg result.content, retryUserMsg])
            lastErr lastResult reqs ops
        else
          let ops :=
            if logEnabled g logID then
              ops ++ [StoreOp.updateRequestLog logID
                ((lastResult.getD result).content) StatusFailed
                FailReasonMaxRetries "JSON validation failed after max retries"
                ((attempt : Int) - 1) (some (lastResult.getD result).usage)]
            else ops
          { result := none
            err := some (.wrapped
              ("ai: JSON validation failed after " ++ toString maxAttempts ++ " attempts: ")
              .providerFailed "")
            requests := reqs, storeOps := ops }

/-- Lines 50-59 of Send: the session id for logging comes from the
first history entry, and the context hint is consulted whenever the
value so far is still empty. -/
def sendSessionID (ctx : Ctx) (history : List Message) : String :=
  let sessionID := match history with
    | [] => ""
    | m :: _ => m.sessionID
  if sessionID = "" then
    match ctx.sessionHint with
    | some s => s
    | none => sessionID
  else sessionID

/-- The RequestLog value Send passes to AddRequestLog before the first
attempt: session id as above, the prompt, attempt number 1, pending
status, everything else zero-valued. -/
def sendInitLog (ctx : Ctx) (history : List Message) (prompt : String) : RequestLog :=
  { id := "", sessionID := sendSessionID ctx history, prompt := prompt
    response := "", attemptNumber := 1, retryCount := 0
    finalStatus := StatusPending, failReason := "", errorMessage := ""
    usage := { promptTokens := 0, responseTokens := 0, totalTokens := 0, thoughtTokens := 0 }
    createdAt := 0, updatedAt := 0 }

/-- Send from gemini.go.  `newLogID` models the uuid AddRequestLog
assigns to the new row (never empty in the real store).  The empty
prompt fails immediately; otherwise, if a store is attached, one
pending RequestLog row is created (the op is recorded even if the
store errors; the log id stays empty on error, which silently disables
the later patches); then the attempt loop runs. -/
def Send (g : GeminiProvider) (parseSchema : String → Option String)
    (newLogID : String) (oracle : Nat → AttemptOutcome) (ctx : Ctx)
    (rules : Rules) (history : List Message) (prompt : String) : SendOutput :=
  if prompt = "" then
    { result := none, err := some .emptyPrompt, requests := [], storeOps := [] }
  else
    let start : String × List StoreOp :=
      match g.store with
      | none => ("", [])
      | some st =>
        if st.addLogOk then
          (newLogID, [StoreOp.addRequestLog (sendInitLog ctx history prompt)])
        else ("", [StoreOp.addRequestLog (sendInitLog ctx history prompt)])
    sendLoop g parseSchema oracle rules prompt start.1 1 maxAttempts history
      none none [] start.2

/-! ### Postgres store model (part_000 / part_003) -/

/-- One row of the `ai_messages` table: the four token counters are
stored as plain integer columns (zeros when the message had no usage). -/
structure MsgRow where
  id : String
  sessionID : String
  seq : Int
  role : String
  content : String
  promptTokens : Int
  responseTokens : Int
  totalTokens : Int
  thoughtTokens : Int
  createdAt : Int
  deriving Repr, DecidableEq

/-- `COALESCE((SELECT MAX(seq) FROM ai_messages WHERE session_id = $2), 0)`:
the maximum seq among the session's rows, or 0 when there are none. -/
def maxSeq (rows : List MsgRow) (sessionID : String) : Int :=
  match (rows.filter (fun r => r.sessionID = sessionID)).map (fun r => r.seq) with
  | [] => 0
  | s :: ss => ss.foldl max s

/-- AddMessage from part_003: inserts a row with seq = max+1 and the
usage counters flattened into columns (zeros for a nil usage), and
returns the Message value the Go function builds — note the returned
message carries the *input* usage pointer verbatim. -/
def AddMessage (rows : List MsgRow) (newID : String) (now : Int)
    (sessionID role content : String) (usage : Option Usage) :
    List MsgRow × Message :=
  let pt := match usage with | none => 0 | some u => u.promptTokens
  let rt := match usage with | none => 0 | some u => u.responseTokens
  let tt := match usage with | none => 0 | some u => u.totalTokens
  let tht := match usage with | none => 0 | some u => u.thoughtTokens
  let seq := maxSeq rows sessionID + 1
  let row : MsgRow :=
    { id := newID, sessionID := sessionID, seq := seq, role := role
      content := content, promptTokens := pt, responseTokens := rt
      totalTokens := tt, thoughtTokens := tht, createdAt := now }
  (rows ++ [row],
   { id := newID, sessionID := sessionID, seq := seq, role := role
     content := content, usage := usage, createdAt := now })

/-- The row-to-Message scan of ListMessages: usage is reconstructed
only when at least one counter is positive, otherwise it is nil. -/
def rowToMessage (r : MsgRow) : Message :=
  { id := r.id, sessionID := r.sessionID, seq := r.seq, role := r.role
    content := r.content
    usage :=
      if r.promptTokens > 0 ∨ r.responseTokens > 0 ∨ r.totalTokens > 0
          ∨ r.thoughtTokens > 0 then
        some { promptTokens := r.promptTokens
               responseTokens := r.responseTokens
               totalTokens := r.totalTokens
               thoughtTokens := r.thoughtTokens }
      else none
    createdAt := r.createdAt }

/-- ListMessages from part_003: the session's rows ordered by seq
ascending, scanned into Messages. -/
def ListMessages (rows : List MsgRow) (sessionID : String) : List Message :=
  ((rows.filter (fun r => r.sessionID = sessionID)).insertionSort
    (fun a b => a.seq ≤ b.seq)).map rowToMessage

/-- One row of the `ai_request_logs` table. -/
structure RequestLogRow where
  id : String
  sessionID : String
  prompt : String
  response : String
  attemptNumber : Int
  retryCount : Int
  finalStatus : String
  failReason : String
  errorMessage : String
  promptTokens : Int
  responseTokens : Int
  totalTokens : Int
  thoughtTokens : Int
  createdAt : Int
  updatedAt : Int
  deriving Repr, DecidableEq

/-- AddRequestLog's INSERT (part_000): status forced to pending, fail
reason, error message and the four counters forced to zero and empty. -/
def AddRequestLogRow (newID : String) (log : RequestLog) (now : Int) :
    RequestLogRow :=
  { id := newID, sessionID := log.sessionID, prompt := log.prompt
    response := log.response, attemptNumber := log.attemptNumber
    retryCount := log.retryCount, finalStatus := StatusPending
    failReason := "", errorMessage := ""
    promptTokens := 0, responseTokens := 0, totalTokens := 0, thoughtTokens := 0
    createdAt := now, updatedAt := now }

/-- UpdateRequestLog's UPDATE (part_000): sets response, final_status,
fail_reason, error_message, retry_count, the four token counters
(zeros when usage is nil) and updated_at — every mutable column, on
every patch. -/
def UpdateRequestLog (row : RequestLogRow) (response status failReason
    errorMsg : String) (retryCount : Int) (usage : Option Usage)
    (now : Int) : RequestLogRow :=
  let pt := match usage with | none => 0 | some u => u.promptTokens
  let rt := match usage with | none => 0 | some u => u.responseTokens
  let tt := match usage with | none => 0 | some u => u.totalTokens
  let tht := match usage with | none => 0 | some u => u.thoughtTokens
  { row with
    response := response, finalStatus := status, failReason := failReason
    errorMessage := errorMsg, retryCount := retryCount
    promptTokens := pt, responseTokens := rt, totalTokens := tt
    thoughtTokens := tht, updatedAt := now }

/-- Replay one of Send's recorded store ops against the request-log
row, using the postgres implementations (the add op re-creates the
row; update ops patch it). -/
def applyOp (row : RequestLogRow) (op : StoreOp) (now : Int) : RequestLogRow :=
  match op with
  | .addRequestLog log => AddRequestLogRow row.id log now
  | .updateRequestLog _ response status failReason errorMsg retryCount usage =>
    UpdateRequestLog row response status failReason errorMsg retryCount usage now

/-! ### Concrete fixtures for instantiations -/

def demoStore : StoreModel := { addLogOk := true, updateErr := fun _ => none }

def demoProvider : GeminiProvider :=
  { apiKey := "k", modelID := "m", store := some demoStore }

def demoRules : Rules := { systemPrompt := "", outputSchema := "", maxTokens := 0 }

def demoCtx : Ctx := { sessionHint := none }

/-- A 200 response whose only part is an unterminated JSON object. -/
def demoBadResp : GeminiResponse :=
  { candidates := [{ content := { parts := [{ text := "\x7b" }], role := "model" } }]
    usageMetadata := { promptTokenCount := 1, candidatesTokenCount := 2
                       totalTokenCount := 3, thoughtsTokenCount := 4 } }

def demoBadOutcome : AttemptOutcome := .httpResp 200 "" (some demoBadResp)

def demoErrOutcome : AttemptOutcome := .transportErr (.netErr false "conn refused")

/-- What sendOnce makes of demoBadOutcome. -/
def demoResult : Result :=
  { content := "\x7b"
    usage := { promptTokens := 1, responseTokens := 2
               totalTokens := 3, thoughtTokens := 4 } }

/-! ### Helper lemmas -/

/-- The single scan with the paired counters computes, in each
component, the independent net count of its bracket pair. -/
lemma foldl_bracketStep (l : List Char) (c s : Int) :
    l.foldl bracketStep (c, s) =
      (c + (((l.filter (fun x => x = '{')).length : Int)
              - ((l.filter (fun x => x = '}')).length : Int)),
       s + (((l.filter (fun x => x = '[')).length : Int)
              - ((l.filter (fun x => x = ']')).length : Int))) := by
  induction l generalizing c s with
  | nil => simp
  | cons x xs ih =>
    rw [List.foldl_cons]
    by_cases h1 : x = '{'
    · subst h1
      rw [show bracketStep (c, s) '{' = (c + 1, s) from rfl, ih, Prod.mk.injEq]
      simp only [List.filter_cons]
      simp
      try omega
    · by_cases h2 : x = '}'
      · subst h2
        rw [show bracketStep (c, s) '}' = (c - 1, s) from rfl, ih, Prod.mk.injEq]
        simp only [List.filter_cons]
        simp
        try omega
      · by_cases h3 : x = '['
        · subst h3
          rw [show bracketStep (c, s) '[' = (c, s + 1) from rfl, ih, Prod.mk.injEq]
          simp only [List.filter_cons]
          simp
          try omega
        · by_cases h4 : x = ']'
          · subst h4
            rw [show bracketStep (c, s) ']' = (c, s - 1) from rfl, ih, Prod.mk.injEq]
            simp only [List.filter_cons]
            simp
            try omega
          · rw [show bracketStep (c, s) x = (c, s) from by
                simp [bracketStep, h1, h2, h3, h4], ih]
            simp only [List.filter_cons]
            simp [h1, h2, h3, h4]

/-- The caller-visible projections of the attempt loop (result, error,
outbound requests) do not depend on the provider record, the log id or
the accumulated store ops: those only feed the storeOps trace. -/
lemma sendLoop_store_blind (ps : String → Option String)
    (oracle : Nat → AttemptOutcome) (rules : Rules) (prompt : String) :
    ∀ (fuel attempt : Nat) (history : List Message) (lastErr : Option GoErr)
      (lastResult : Option Result) (reqs : List GenRequest)
      (g₁ g₂ : GeminiProvider) (id₁ id₂ : String) (ops₁ ops₂ : List StoreOp),
      (sendLoop g₁ ps oracle rules prompt id₁ attempt fuel history lastErr
          lastResult reqs ops₁).result =
        (sendLoop g₂ ps oracle rules prompt id₂ attempt fuel history lastErr
          lastResult reqs ops₂).result
      ∧ (sendLoop g₁ ps oracle rules prompt id₁ attempt fuel history lastErr
          lastResult reqs ops₁).err =
        (sendLoop g₂ ps oracle rules prompt id₂ attempt fuel history lastErr
          lastResult reqs ops₂).err
      ∧ (sendLoop g₁ ps oracle rules prompt id₁ attempt fuel history lastErr
          lastResult reqs ops₁).requests =
        (sendLoop g₂ ps oracle rules prompt id₂ attempt fuel history lastErr
          lastResult reqs ops₂).requests := by
  intro fuel
  induction fuel with
  | zero =>
    intro attempt history lastErr lastResult reqs g₁ g₂ id₁ id₂ ops₁ ops₂
    exact ⟨rfl, rfl, rfl⟩
  | succ n ih =>
    intro attempt history lastErr lastResult reqs g₁ g₂ id₁ id₂ ops₁ ops₂
    simp only [sendLoop]
    cases hso : sendOnce (oracle (attempt - 1)) with
    | error e =>
      by_cases hlt : attempt < maxAttempts
      · simp only [if_pos hlt]
        exact ih _ _ _ _ _ _ _ _ _ _ _
      · simp only [if_neg hlt]
        refine ⟨by trivial, by trivial, by trivial⟩
    | ok r =>
      by_cases hv : (validateJSON r.content).1 = true
      · simp only [hv, if_true]
        refine ⟨by trivial, by trivial, by trivial⟩
      · simp only [Bool.not_eq_true] at hv
        simp only [hv, Bool.false_eq_true, if_false]
        by_cases hlt : attempt < maxAttempts
        · simp only [if_pos hlt]
          exact ih _ _ _ _ _ _ _ _ _ _ _
        · simp only [if_neg hlt]
          refine ⟨by trivial, by trivial, by trivial⟩

/-- Inside Send's loop the fuel always covers the remaining attempts,
so the loop ends in a return statement: either a validated result with
no error, or no result with some error. -/
lemma sendLoop_all_or_nothing (g : GeminiProvider) (ps : String → Option String)
    (oracle : Nat → AttemptOutcome) (rules : Rules) (prompt : String)
    (logID : String) :
    ∀ (fuel attempt : Nat) (history : List Message) (lastErr : Option GoErr)
      (lastResult : Option Result) (reqs : List GenRequest) (ops : List StoreOp),
      attempt ≤ maxAttempts → attempt + fuel = maxAttempts + 1 →
      (∃ r, (sendLoop g ps oracle rules prompt logID attempt fuel history
            lastErr lastResult reqs ops).result = some r
          ∧ (sendLoop g ps oracle rules prompt logID attempt fuel history
              lastErr lastResult reqs ops).err = none
          ∧ (validateJSON r.content).1 = true)
      ∨ ((sendLoop g ps oracle rules prompt logID attempt fuel history
            lastErr lastResult reqs ops).result = none
          ∧ ∃ e, (sendLoop g ps oracle rules prompt logID attempt fuel history
              lastErr lastResult reqs ops).err = some e) := by
  intro fuel
  induction fuel with
  | zero =>
    intro attempt history lastErr lastResult reqs ops hle hsum
    exfalso
    simp only [maxAttempts] at hle hsum
    omega
  | succ n ih =>
    intro attempt history lastErr lastResult reqs ops hle hsum
    simp only [sendLoop]
    cases hso : sendOnce (oracle (attempt - 1)) with
    | error e =>
      by_cases hlt : attempt < maxAttempts
      · simp only [if_pos hlt]
        exact ih _ _ _ _ _ _ (by omega) (by omega)
      · simp only [if_neg hlt]
        exact Or.inr ⟨by trivial, e, by trivial⟩
    | ok r =>
      by_cases hv : (validateJSON r.content).1 = true
      · simp only [hv, if_true]
        exact Or.inl ⟨r, by trivial, by trivial, hv⟩
      · simp only [Bool.not_eq_true] at hv
        simp only [hv, Bool.false_eq_true, if_false]
        by_cases hlt : attempt < maxAttempts
        · simp only [if_pos hlt]
          exact ih _ _ _ _ _ _ (by omega) (by omega)
        · simp only [if_neg hlt]
          exact Or.inr ⟨by trivial, _, by trivial⟩

/-- When validateJSON rejects, the reported reason is incomplete_json. -/
lemma validateJSON_false_reason (s : String) (h : (validateJSON s).1 = false) :
    (validateJSON s).2 = FailReasonIncompleteJSON := by
  unfold validateJSON at h ⊢
  dsimp only at h ⊢
  split at h
  · split
    · rfl
    · simp_all
  · simp at h

/-- The attempt loop only appends to the store-op trace it is given. -/
lemma sendLoop_ops_extends (g : GeminiProvider) (ps : String → Option String)
    (oracle : Nat → AttemptOutcome) (rules : Rules) (prompt : String)
    (logID : String) :
    ∀ (fuel attempt : Nat) (history : List Message) (lastErr : Option GoErr)
      (lastResult : Option Result) (reqs : List GenRequest) (ops : List StoreOp),
      ∃ tail, (sendLoop g ps oracle rules prompt logID attempt fuel history
          lastErr lastResult reqs ops).storeOps = ops ++ tail := by
  intro fuel
  induction fuel with
  | zero =>
    intro attempt history lastErr lastResult reqs ops
    exact ⟨[], by simp [sendLoop]⟩
  | succ n ih =>
    intro attempt history lastErr lastResult reqs ops
    simp only [sendLoop]
    cases hso : sendOnce (oracle (attempt - 1)) with
    | error e =>
      by_cases hlt : attempt < maxAttempts
      · simp only [if_pos hlt]
        by_cases hl : logEnabled g logID = true
        · simp only [if_pos hl]
          obtain ⟨t, ht⟩ := ih (attempt + 1) history (some e) lastResult _ _
          exact ⟨_, by rw [ht, List.append_assoc]⟩
        · simp only [if_neg hl]
          exact ih _ _ _ _ _ _
      · simp only [if_neg hlt]
        by_cases hl : logEnabled g logID = true
        · simp only [if_pos hl]
          exact ⟨_, rfl⟩
        · simp only [if_neg hl]
          exact ⟨[], by simp⟩
    | ok r =>
      by_cases hv : (validateJSON r.content).1 = true
      · simp only [hv, if_true]
        by_cases hl : logEnabled g logID = true
        · simp only [if_pos hl]
          exact ⟨_, rfl⟩
        · simp only [if_neg hl]
          exact ⟨[], by simp⟩
      · simp only [Bool.not_eq_true] at hv
        simp only [hv, Bool.false_eq_true, if_false]
        by_cases hlt : attempt < maxAttempts
        · simp only [if_pos hlt]
          by_cases hl : logEnabled g logID = true
          · simp only [if_pos hl]
            obtain ⟨t, ht⟩ := ih (attempt + 1) _ lastErr (some r) _ _
            exact ⟨_, by rw [ht, List.append_assoc]⟩
          · simp only [if_neg hl]
            exact ih _ _ _ _ _ _
        · simp only [if_neg hlt]
          by_cases hl : logEnabled g logID = true
          · simp only [if_pos hl]
            exact ⟨_, by rw [List.append_assoc]⟩
          · simp only [if_neg hl]
            exact ⟨[], by simp⟩

/-! ### Claim theorems -/

/-- C1: the completeness validation accepts a response string iff the
net `{`/`}` counter and the net `[`/`]` counter are both zero — and as
an iff over every string, nothing else about the string (quoting, JSON
grammar, sign of the counters mid-scan) can affect the verdict. -/
theorem validateJSON_iff_net_counts (s : String) :
    (validateJSON s).1 = true ↔
      netCount s '{' '}' = 0 ∧ netCount s '[' ']' = 0 := by
  unfold validateJSON netCount
  rw [foldl_bracketStep]
  simp only [String.toList]
  by_cases hc :
      (((s.data.filter (fun x => x = '{')).length : Int)
          - ((s.data.filter (fun x => x = '}')).length : Int)) = 0 ∧
      (((s.data.filter (fun x => x = '[')).length : Int)
          - ((s.data.filter (fun x => x = ']')).length : Int)) = 0
  · simp [hc.1, hc.2]
  · rw [not_and_or] at hc
    rcases hc with hc | hc <;> simp [hc]

/-- C4: Send with an empty prompt fails immediately with the
EmptyPrompt sentinel, issues no outbound request and performs no
Persistence Port call, whatever the provider configuration, store
attachment, context, rules and history. -/
theorem send_empty_prompt (g : GeminiProvider) (ps : String → Option String)
    (newLogID : String) (oracle : Nat → AttemptOutcome) (ctx : Ctx)
    (rules : Rules) (history : List Message) :
    Send g ps newLogID oracle ctx rules history "" =
      { result := none, err := some .emptyPrompt, requests := [], storeOps := [] } := by
  simp [Send]

/-- C5 (code bug): every error sendOnce can return is an fmt.Errorf
wrapper, and classifyError's sentinel comparisons and net.Error type
assertion never match a wrapper, so the fail reason recorded for a
transport failure is always unknown_error — the taxonomy's timeout and
network branches are unreachable from Send.  The concrete run shows a
context.DeadlineExceeded transport failure being logged as
unknown_error instead of the claimed timeout. -/
theorem classify_transport_always_unknown :
    (∀ (pre post : String) (e : GoErr),
        classifyError (.wrapped pre e post) = FailReasonUnknownError)
    ∧ (∀ outcome : AttemptOutcome,
        (∃ r, sendOnce outcome = .ok r)
        ∨ (∃ pre e post, sendOnce outcome = .error (.wrapped pre e post)))
    ∧ (Send { apiKey := "k", modelID := "m"
              store := some { addLogOk := true, updateErr := fun _ => none } }
        (fun _ => none) "L1" (fun _ => .transportErr .deadlineExceeded)
        { sessionHint := none }
        { systemPrompt := "", outputSchema := "", maxTokens := 0 }
        [] "p").storeOps =
      [ .addRequestLog
          { id := "", sessionID := "", prompt := "p", response := ""
            attemptNumber := 1, retryCount := 0, finalStatus := StatusPending
            failReason := "", errorMessage := ""
            usage := { promptTokens := 0, responseTokens := 0
                       totalTokens := 0, thoughtTokens := 0 }
            createdAt := 0, updatedAt := 0 },
        .updateRequestLog "L1" "" StatusFailed FailReasonUnknownError
          "ai: send request: context deadline exceeded" 0 none,
        .updateRequestLog "L1" "" StatusFailed FailReasonUnknownError
          "ai: send request: context deadline exceeded" 1 none ]
    ∧ FailReasonUnknownError ≠ FailReasonTimeout := by
  refine ⟨fun pre post e => rfl, fun outcome => ?_, by rfl, by decide⟩
  cases outcome with
  | transportErr e => exact Or.inr ⟨"ai: send request: ", e, "", rfl⟩
  | httpResp status rawBody parsed =>
    by_cases hst : status ≠ 200
    · exact Or.inr ⟨"", .providerFailed,
        ": status " ++ toString status ++ ": " ++ rawBody, by simp [sendOnce, hst]⟩
    · cases parsed with
      | none => exact Or.inr ⟨"ai: parse response: ", .errorString "unmarshal error", "",
          by simp [sendOnce, hst]⟩
      | some resp =>
        cases hcand : resp.candidates with
        | nil => exact Or.inr ⟨"", .providerFailed, ": empty response from Gemini",
            by simp [sendOnce, hst, parseResponse, hcand]⟩
        | cons c rest =>
          cases hparts : c.content.parts with
          | nil => exact Or.inr ⟨"", .providerFailed, ": empty response from Gemini",
              by simp [sendOnce, hst, parseResponse, hcand, hparts]⟩
          | cons p prest =>
            exact Or.inl ⟨{ content := p.text
                            usage := { promptTokens := resp.usageMetadata.promptTokenCount
                                       responseTokens := resp.usageMetadata.candidatesTokenCount
                                       totalTokens := resp.usageMetadata.totalTokenCount
                                       thoughtTokens := resp.usageMetadata.thoughtsTokenCount } },
              by simp [sendOnce, hst, parseResponse, hcand, hparts]⟩

/-- C6: the result, error and outbound requests of Send are identical
whether no store is attached, a store is attached and works, or a
store is attached and its operations fail: the store configuration
only changes the storeOps audit trace, never the caller-visible
outcome, the attempt count or validation. -/
theorem send_store_independent (ps : String → Option String)
    (oracle : Nat → AttemptOutcome) (ctx : Ctx) (rules : Rules)
    (history : List Message) (prompt : String) (apiKey modelID : String)
    (s₁ s₂ : Option StoreModel) (id₁ id₂ : String) :
    ((Send ⟨apiKey, modelID, s₁⟩ ps id₁ oracle ctx rules history prompt).result
      = (Send ⟨apiKey, modelID, s₂⟩ ps id₂ oracle ctx rules history prompt).result)
    ∧ ((Send ⟨apiKey, modelID, s₁⟩ ps id₁ oracle ctx rules history prompt).err
      = (Send ⟨apiKey, modelID, s₂⟩ ps id₂ oracle ctx rules history prompt).err)
    ∧ ((Send ⟨apiKey, modelID, s₁⟩ ps id₁ oracle ctx rules history prompt).requests
      = (Send ⟨apiKey, modelID, s₂⟩ ps id₂ oracle ctx rules history prompt).requests) := by
  by_cases hp : prompt = ""
  · subst hp
    simp [Send]
  · simp only [Send, if_neg hp]
    exact sendLoop_store_blind ps oracle rules prompt maxAttempts 1 history
      none none [] _ _ _ _ _ _

/-- C7: Send either returns a result whose content passes the
completeness validation and no error, or no result and an error —
incomplete content is never handed to the caller, on any path. -/
theorem send_all_or_nothing (g : GeminiProvider) (ps : String → Option String)
    (newLogID : String) (oracle : Nat → AttemptOutcome) (ctx : Ctx)
    (rules : Rules) (history : List Message) (prompt : String) :
    (∃ r, (Send g ps newLogID oracle ctx rules history prompt).result = some r
        ∧ (Send g ps newLogID oracle ctx rules history prompt).err = none
        ∧ (validateJSON r.content).1 = true)
    ∨ ((Send g ps newLogID oracle ctx rules history prompt).result = none
        ∧ ∃ e, (Send g ps newLogID oracle ctx rules history prompt).err = some e) := by
  by_cases hp : prompt = ""
  · subst hp
    refine Or.inr ⟨by simp [Send], .emptyPrompt, by simp [Send]⟩
  · simp only [Send, if_neg hp]
    exact sendLoop_all_or_nothing _ _ _ _ _ _ maxAttempts 1 history none none
      [] _ (by decide) (by decide)

/-- C2: when both attempts return responses that fail the completeness
validation, Send issues exactly 2 requests, returns no result and a
ProviderFailed-wrapped error, and — with a store attached whose row
creation succeeded — the final patch on the single log row sets failed
status, the max_retries_exceeded reason, and the last partial content
and usage. -/
theorem send_max_retries_trace (g : GeminiProvider) (st : StoreModel)
    (ps : String → Option String) (newLogID : String)
    (oracle : Nat → AttemptOutcome) (ctx : Ctx) (rules : Rules)
    (history : List Message) (prompt : String) (r1 r2 : Result)
    (hp : prompt ≠ "") (hs : g.store = some st) (ha : st.addLogOk = true)
    (hid : newLogID ≠ "")
    (h0 : sendOnce (oracle 0) = .ok r1) (hv0 : (validateJSON r1.content).1 = false)
    (h1 : sendOnce (oracle 1) = .ok r2) (hv1 : (validateJSON r2.content).1 = false) :
    (Send g ps newLogID oracle ctx rules history prompt).requests.length = 2
    ∧ (Send g ps newLogID oracle ctx rules history prompt).result = none
    ∧ (Send g ps newLogID oracle ctx rules history prompt).err =
        some (.wrapped "ai: JSON validation failed after 2 attempts: " .providerFailed "")
    ∧ (GoErr.wrapped "ai: JSON validation failed after 2 attempts: " .providerFailed "").is
        .providerFailed = true
    ∧ (Send g ps newLogID oracle ctx rules history prompt).storeOps.getLast? =
        some (.updateRequestLog newLogID r2.content StatusFailed FailReasonMaxRetries
          "JSON validation failed after max retries" 1 (some r2.usage)) := by
  simp only [Send, if_neg hp, hs, ha, maxAttempts]
  simp only [sendLoop]
  norm_num
  simp only [h0, hv0]
  simp only [Bool.false_eq_true, if_false, maxAttempts, h1, hv1]
  norm_num
  simp [logEnabled, hs, hid, GoErr.is]
  rfl

/-- C3: when attempt 1 returns a response failing validation, the body
of attempt 2 is the request built from the original history plus the
two synthetic turns, so its contents are the mapped original history,
then the (mapped) assistant turn carrying attempt 1's incomplete
content, then the user regeneration request, then the original prompt
as the trailing user turn. -/
theorem send_retry_appends_synthetic_turns (g : GeminiProvider)
    (ps : String → Option String) (newLogID : String)
    (oracle : Nat → AttemptOutcome) (ctx : Ctx) (rules : Rules)
    (history : List Message) (prompt : String) (r1 : Result)
    (hp : prompt ≠ "")
    (h0 : sendOnce (oracle 0) = .ok r1)
    (hv0 : (validateJSON r1.content).1 = false) :
    ((Send g ps newLogID oracle ctx rules history prompt).requests)[1]? =
      some (buildRequest ps rules
        (history ++ [retryAssistantMsg r1.content, retryUserMsg]) prompt)
    ∧ (((Send g ps newLogID oracle ctx rules history prompt).requests)[1]?).map
        GenRequest.contents =
      some (history.map (fun m => Turn.mk (mapRole m.role) m.content)
        ++ [Turn.mk "model" r1.content, Turn.mk "user" retryUserText,
            Turn.mk "user" prompt]) := by
  simp only [Send, if_neg hp, maxAttempts]
  simp only [sendLoop]
  norm_num
  simp only [h0, hv0]
  simp only [Bool.false_eq_true, if_false, maxAttempts]
  norm_num
  cases h1 : sendOnce (oracle 1) with
  | error e =>
    simp [buildRequest, mapRole, retryAssistantMsg, retryUserMsg, retryUserText]
  | ok r2 =>
    by_cases hv1 : (validateJSON r2.content).1 = true
    · simp [hv1, buildRequest, mapRole, retryAssistantMsg, retryUserMsg, retryUserText]
    · simp only [Bool.not_eq_true] at hv1
      simp [hv1, buildRequest, mapRole, retryAssistantMsg, retryUserMsg, retryUserText]

/-- C9 (amended): with a store attached, the first Persistence Port
call of Send creates the pending log row, whose session id is the
first history entry's session reference when history is non-empty and
that reference is non-empty, and otherwise — history empty, or its
first reference empty — the context hint when present, else the empty
string; the row is created in every one of these cases. -/
theorem send_log_session_source (g : GeminiProvider) (st : StoreModel)
    (ps : String → Option String) (newLogID : String)
    (oracle : Nat → AttemptOutcome) (ctx : Ctx) (rules : Rules)
    (history : List Message) (prompt : String)
    (hp : prompt ≠ "") (hs : g.store = some st) :
    (Send g ps newLogID oracle ctx rules history prompt).storeOps.head? =
        some (.addRequestLog (sendInitLog ctx history prompt))
    ∧ (sendInitLog ctx history prompt).sessionID =
        (match history with
         | [] => ctx.sessionHint.getD ""
         | m :: _ => if m.sessionID = "" then ctx.sessionHint.getD "" else m.sessionID)
    ∧ (sendInitLog ctx history prompt).prompt = prompt
    ∧ (sendInitLog ctx history prompt).attemptNumber = 1
    ∧ (sendInitLog ctx history prompt).finalStatus = StatusPending := by
  refine ⟨?_, ?_, rfl, rfl, rfl⟩
  · simp only [Send, if_neg hp, hs]
    by_cases ha : st.addLogOk = true
    · simp only [ha, if_true]
      obtain ⟨t, ht⟩ := sendLoop_ops_extends g ps oracle rules prompt newLogID
        maxAttempts 1 history none none [] _
      rw [ht]
      simp
    · simp only [ha, Bool.false_eq_true, if_false]
      obtain ⟨t, ht⟩ := sendLoop_ops_extends g ps oracle rules prompt ""
        maxAttempts 1 history none none [] _
      rw [ht]
      simp
  · simp only [sendInitLog, sendSessionID]
    cases history with
    | nil => cases hh : ctx.sessionHint <;> simp [hh]
    | cons m rest =>
      by_cases hm : m.sessionID = ""
      · cases hh : ctx.sessionHint <;> simp [hh, hm]
      · simp [hm]

/-- C9 (counterexample): with non-empty history whose first entry has
an empty session reference and a context hint present, the code logs
the hint, not the first entry's (empty) session reference as the claim
states. -/
theorem send_log_session_ctx_overrides :
    (Send { apiKey := "k", modelID := "m"
            store := some { addLogOk := true, updateErr := fun _ => none } }
      (fun _ => none) "L1" (fun _ => .transportErr .canceled)
      { sessionHint := some "sctx" }
      { systemPrompt := "", outputSchema := "", maxTokens := 0 }
      [{ id := "", sessionID := "", seq := 1, role := "user", content := "x"
         usage := none, createdAt := 0 }] "p").storeOps.head? =
      some (.addRequestLog
        { id := "", sessionID := "sctx", prompt := "p", response := ""
          attemptNumber := 1, retryCount := 0, finalStatus := StatusPending
          failReason := "", errorMessage := ""
          usage := { promptTokens := 0, responseTokens := 0
                     totalTokens := 0, thoughtTokens := 0 }
          createdAt := 0, updatedAt := 0 })
    ∧ ("sctx" : String) ≠ "" := ⟨rfl, by decide⟩

/-- C10: every UpdateRequestLog patch overwrites all mutable columns
(the patched row does not depend on the previous values of those
columns), and in the run where attempt 1 fails validation (patching
partial usage onto the row) and attempt 2 fails at the transport level
(patching with absent usage), replaying Send's recorded patches on the
created row first sets the partial counters and then resets all four
to zero. -/
theorem update_patch_resets_usage (g : GeminiProvider) (st : StoreModel)
    (ps : String → Option String) (newLogID : String)
    (oracle : Nat → AttemptOutcome) (ctx : Ctx) (rules : Rules)
    (history : List Message) (prompt : String) (r1 : Result) (e : GoErr)
    (hp : prompt ≠ "") (hs : g.store = some st) (ha : st.addLogOk = true)
    (hid : newLogID ≠ "")
    (h0 : sendOnce (oracle 0) = .ok r1) (hv0 : (validateJSON r1.content).1 = false)
    (h1 : sendOnce (oracle 1) = .error e) :
    (∀ (row₁ row₂ : RequestLogRow) (response status failReason errorMsg : String)
        (retryCount : Int) (usage : Option Usage) (now : Int),
        row₁.id = row₂.id → row₁.sessionID = row₂.sessionID →
        row₁.prompt = row₂.prompt → row₁.attemptNumber = row₂.attemptNumber →
        row₁.createdAt = row₂.createdAt →
        UpdateRequestLog row₁ response status failReason errorMsg retryCount usage now =
          UpdateRequestLog row₂ response status failReason errorMsg retryCount usage now)
    ∧ (Send g ps newLogID oracle ctx rules history prompt).storeOps =
        [ .addRequestLog (sendInitLog ctx history prompt),
          .updateRequestLog newLogID r1.content StatusPending FailReasonIncompleteJSON
            "JSON validation failed" 0 (some r1.usage),
          .updateRequestLog newLogID "" StatusFailed (classifyError e) (GoErr.msg e) 1 none ]
    ∧ (let row0 := AddRequestLogRow newLogID (sendInitLog ctx history prompt) 0
       let row1 := UpdateRequestLog row0 r1.content StatusPending FailReasonIncompleteJSON
         "JSON validation failed" 0 (some r1.usage) 1
       let row2 := UpdateRequestLog row1 "" StatusFailed (classifyError e) (GoErr.msg e) 1 none 2
       (row1.promptTokens = r1.usage.promptTokens
         ∧ row1.responseTokens = r1.usage.responseTokens
         ∧ row1.totalTokens = r1.usage.totalTokens
         ∧ row1.thoughtTokens = r1.usage.thoughtTokens)
       ∧ row2.promptTokens = 0 ∧ row2.responseTokens = 0
         ∧ row2.totalTokens = 0 ∧ row2.thoughtTokens = 0) := by
  refine ⟨?_, ?_, ?_⟩
  · intro row₁ row₂ response status failReason errorMsg retryCount usage now
    intro e1 e2 e3 e4 e5
    cases row₁
    cases row₂
    simp_all [UpdateRequestLog]
  · simp only [Send, if_neg hp, hs, ha, maxAttempts]
    simp only [sendLoop]
    norm_num
    simp only [h0, hv0]
    simp only [Bool.false_eq_true, if_false, maxAttempts, h1]
    norm_num
    simp [logEnabled, hs, hid, validateJSON_false_reason _ hv0]
  · simp [UpdateRequestLog, AddRequestLogRow]

/-- C8 (counterexample): an all-zero Usage copied through
parseResponse and stored with the assistant message reads back from
ListMessages as an absent usage, not as a Usage with four zero
counters. -/
theorem usage_zero_roundtrip_lost :
    parseResponse
        { candidates := [{ content := { parts := [{ text := "hi" }], role := "model" } }]
          usageMetadata := { promptTokenCount := 0, candidatesTokenCount := 0
                             totalTokenCount := 0, thoughtsTokenCount := 0 } } =
      .ok { content := "hi"
            usage := { promptTokens := 0, responseTokens := 0
                       totalTokens := 0, thoughtTokens := 0 } }
    ∧ (ListMessages (AddMessage [] "m1" 5 "s" "assistant" "hi"
          (some { promptTokens := 0, responseTokens := 0
                  totalTokens := 0, thoughtTokens := 0 })).1 "s").map Message.usage
        = [none] := ⟨rfl, rfl⟩

/-- C8 (amended): provided at least one of the four counters is
positive, a Usage parsed verbatim from the endpoint response, stored
via AddMessage and read back via ListMessages keeps all four counter
values exactly, with no aggregation or recomputation. -/
theorem usage_roundtrip_kept (rows : List MsgRow) (resp : GeminiResponse)
    (r : Result) (newID : String) (now : Int) (sid content : String)
    (hparse : parseResponse resp = .ok r)
    (hpos : 0 < r.usage.promptTokens ∨ 0 < r.usage.responseTokens ∨
        0 < r.usage.totalTokens ∨ 0 < r.usage.thoughtTokens)
    (hfresh : ∀ row ∈ rows, row.id ≠ newID) :
    (r.usage.promptTokens = resp.usageMetadata.promptTokenCount
      ∧ r.usage.responseTokens = resp.usageMetadata.candidatesTokenCount
      ∧ r.usage.totalTokens = resp.usageMetadata.totalTokenCount
      ∧ r.usage.thoughtTokens = resp.usageMetadata.thoughtsTokenCount)
    ∧ (∃ m ∈ ListMessages (AddMessage rows newID now sid "assistant" content
          (some r.usage)).1 sid, m.id = newID ∧ m.usage = some r.usage)
    ∧ (∀ m ∈ ListMessages (AddMessage rows newID now sid "assistant" content
          (some r.usage)).1 sid, m.id = newID → m.usage = some r.usage) := by
  have husage : r.usage.promptTokens = resp.usageMetadata.promptTokenCount
      ∧ r.usage.responseTokens = resp.usageMetadata.candidatesTokenCount
      ∧ r.usage.totalTokens = resp.usageMetadata.totalTokenCount
      ∧ r.usage.thoughtTokens = resp.usageMetadata.thoughtsTokenCount := by
    cases hcand : resp.candidates with
    | nil => simp [parseResponse, hcand] at hparse
    | cons c rest =>
      cases hparts : c.content.parts with
      | nil => simp [parseResponse, hcand, hparts] at hparse
      | cons p prest =>
        simp [parseResponse, hcand, hparts] at hparse
        rw [← hparse]
        exact ⟨rfl, rfl, rfl, rfl⟩
  refine ⟨husage, ?_, ?_⟩
  · refine ⟨rowToMessage
      { id := newID, sessionID := sid, seq := maxSeq rows sid + 1
        role := "assistant", content := content
        promptTokens := r.usage.promptTokens
        responseTokens := r.usage.responseTokens
        totalTokens := r.usage.totalTokens
        thoughtTokens := r.usage.thoughtTokens, createdAt := now }, ?_, ?_, ?_⟩
    · simp only [ListMessages, AddMessage]
      refine List.mem_map_of_mem _ ?_
      rw [List.mem_insertionSort, List.mem_filter]
      constructor
      · simp
      · simp
    · rfl
    · simp only [rowToMessage]
      rw [if_pos hpos]
  · intro m hm hmid
    simp only [ListMessages, AddMessage] at hm
    obtain ⟨row, hrow, hrw⟩ := List.mem_map.1 hm
    rw [List.mem_insertionSort, List.mem_filter] at hrow
    obtain ⟨hrmem, hrsid⟩ := hrow
    rcases List.mem_append.1 hrmem with hin | hnew
    · exfalso
      have hrid : row.id = newID := by
        rw [← hrw] at hmid
        exact hmid
      exact hfresh row hin hrid
    · have hrow_eq : row =
          { id := newID, sessionID := sid, seq := maxSeq rows sid + 1
            role := "assistant", content := content
            promptTokens := r.usage.promptTokens
            responseTokens := r.usage.responseTokens
            totalTokens := r.usage.totalTokens
            thoughtTokens := r.usage.thoughtTokens, createdAt := now } := by
        simpa using hnew
      subst hrow_eq
      rw [← hrw]
      simp only [rowToMessage]
      rw [if_pos hpos]

/-- Witness: send_max_retries_trace on a concrete always-incomplete run. -/
theorem send_max_retries_trace_witness :
    (Send demoProvider (fun _ => none) "L1" (fun _ => demoBadOutcome) demoCtx
        demoRules [] "p").requests.length = 2
    ∧ (Send demoProvider (fun _ => none) "L1" (fun _ => demoBadOutcome) demoCtx
        demoRules [] "p").result = none
    ∧ (Send demoProvider (fun _ => none) "L1" (fun _ => demoBadOutcome) demoCtx
        demoRules [] "p").err =
        some (.wrapped "ai: JSON validation failed after 2 attempts: " .providerFailed "")
    ∧ (GoErr.wrapped "ai: JSON validation failed after 2 attempts: " .providerFailed "").is
        .providerFailed = true
    ∧ (Send demoProvider (fun _ => none) "L1" (fun _ => demoBadOutcome) demoCtx
        demoRules [] "p").storeOps.getLast? =
        some (.updateRequestLog "L1" demoResult.content StatusFailed FailReasonMaxRetries
          "JSON validation failed after max retries" 1 (some demoResult.usage)) :=
  send_max_retries_trace demoProvider demoStore (fun _ => none) "L1"
    (fun _ => demoBadOutcome) demoCtx demoRules [] "p" demoResult demoResult
    (by decide) rfl rfl (by decide) rfl rfl rfl rfl

/-- Witness: send_retry_appends_synthetic_turns on a concrete run. -/
theorem send_retry_appends_synthetic_turns_witness :
    ((Send demoProvider (fun _ => none) "L1" (fun _ => demoBadOutcome) demoCtx
        demoRules [] "p").requests)[1]? =
      some (buildRequest (fun _ => none) demoRules
        ([] ++ [retryAssistantMsg demoResult.content, retryUserMsg]) "p")
    ∧ (((Send demoProvider (fun _ => none) "L1" (fun _ => demoBadOutcome) demoCtx
        demoRules [] "p").requests)[1]?).map GenRequest.contents =
      some (([] : List Message).map (fun m => Turn.mk (mapRole m.role) m.content)
        ++ [Turn.mk "model" demoResult.content, Turn.mk "user" retryUserText,
            Turn.mk "user" "p"]) :=
  send_retry_appends_synthetic_turns demoProvider (fun _ => none) "L1"
    (fun _ => demoBadOutcome) demoCtx demoRules [] "p" demoResult
    (by decide) rfl rfl

/-- Witness: send_log_session_source on a concrete run with empty
history and no context hint. -/
theorem send_log_session_source_witness :
    (Send demoProvider (fun _ => none) "L1" (fun _ => demoBadOutcome) demoCtx
        demoRules [] "p").storeOps.head? =
      some (.addRequestLog (sendInitLog demoCtx [] "p"))
    ∧ (sendInitLog demoCtx [] "p").sessionID = demoCtx.sessionHint.getD ""
    ∧ (sendInitLog demoCtx [] "p").prompt = "p"
    ∧ (sendInitLog demoCtx [] "p").attemptNumber = 1
    ∧ (sendInitLog demoCtx [] "p").finalStatus = StatusPending :=
  send_log_session_source demoProvider demoStore (fun _ => none) "L1"
    (fun _ => demoBadOutcome) demoCtx demoRules [] "p" (by decide) rfl

/-- Witness: the replay part of update_patch_resets_usage on a
concrete run (incomplete response, then a network failure). -/
theorem update_patch_resets_usage_witness :
    (Send demoProvider (fun _ => none) "L1"
        (fun n => if n = 0 then demoBadOutcome else demoErrOutcome) demoCtx
        demoRules [] "p").storeOps =
      [ .addRequestLog (sendInitLog demoCtx [] "p"),
        .updateRequestLog "L1" demoResult.content StatusPending FailReasonIncompleteJSON
          "JSON validation failed" 0 (some demoResult.usage),
        .updateRequestLog "L1" "" StatusFailed
          (classifyError (.wrapped "ai: send request: " (.netErr false "conn refused") ""))
          (GoErr.msg (.wrapped "ai: send request: " (.netErr false "conn refused") ""))
          1 none ]
    ∧ (let row0 := AddRequestLogRow "L1" (sendInitLog demoCtx [] "p") 0
       let row1 := UpdateRequestLog row0 demoResult.content StatusPending
         FailReasonIncompleteJSON "JSON validation failed" 0 (some demoResult.usage) 1
       let row2 := UpdateRequestLog row1 "" StatusFailed
         (classifyError (.wrapped "ai: send request: " (.netErr false "conn refused") ""))
         (GoErr.msg (.wrapped "ai: send request: " (.netErr false "conn refused") ""))
         1 none 2
       (row1.promptTokens = demoResult.usage.promptTokens
         ∧ row1.responseTokens = demoResult.usage.responseTokens
         ∧ row1.totalTokens = demoResult.usage.totalTokens
         ∧ row1.thoughtTokens = demoResult.usage.thoughtTokens)
       ∧ row2.promptTokens = 0 ∧ row2.responseTokens = 0
         ∧ row2.totalTokens = 0 ∧ row2.thoughtTokens = 0) :=
  (update_patch_resets_usage demoProvider demoStore (fun _ => none) "L1"
    (fun n => if n = 0 then demoBadOutcome else demoErrOutcome) demoCtx
    demoRules [] "p" demoResult
    (.wrapped "ai: send request: " (.netErr false "conn refused") "")
    (by decide) rfl rfl (by decide) rfl rfl rfl).2

/-- Witness: the parse and round-trip parts of usage_roundtrip_kept on
a concrete store and response. -/
theorem usage_roundtrip_kept_witness :
    (demoResult.usage.promptTokens = demoBadResp.usageMetadata.promptTokenCount
      ∧ demoResult.usage.responseTokens = demoBadResp.usageMetadata.candidatesTokenCount
      ∧ demoResult.usage.totalTokens = demoBadResp.usageMetadata.totalTokenCount
      ∧ demoResult.usage.thoughtTokens = demoBadResp.usageMetadata.thoughtsTokenCount)
    ∧ ∃ m ∈ ListMessages (AddMessage [] "m1" 5 "s" "assistant" "hi"
        (some demoResult.usage)).1 "s", m.id = "m1" ∧ m.usage = some demoResult.usage :=
  ⟨(usage_roundtrip_kept [] demoBadResp demoResult "m1" 5 "s" "hi" rfl
      (Or.inl (by decide)) (by simp)).1,
   (usage_roundtrip_kept [] demoBadResp demoResult "m1" 5 "s" "hi" rfl
      (Or.inl (by decide)) (by simp)).2.1⟩

end AI
